import Mathlib

/-
  Verification of the haksnbot-tools Session and Action-Outcome subsystem.

  The definitions below are a shallow embedding of the JavaScript sources:
  * the connection tools (connect / disconnect / scheduleReconnect and the
    bot event handlers registered by connect),
  * the broadcast-message classification pipeline attached to the bot
    message event (sign suppression, whisper suppression, third-party chat
    rewriting with deduplication, system logging),
  * the GriefPrevention denial-capture listener and the post-action outcome
    classification of placeBlock and breakBlock (src/tools/building.js),
  * the trustlist claim lookup parser (checkClaimStatus).

  JavaScript strings are modelled as Lean strings over their characters;
  the few regular expressions in the source are compiled by hand into
  executable scanners with the same matching semantics on single-line
  inputs (none of the messages involved contain newline characters).
-/

namespace Haksnbot

/- Characters: the character classes used by the regular expressions of the
   source. JS \w is [A-Za-z0-9_]; JS \s on the ASCII range is space, tab,
   newline, carriage return, vertical tab and form feed. -/

def jsWordChar (c : Char) : Bool :=
  decide ((65 ≤ c.toNat ∧ c.toNat ≤ 90) ∨ (97 ≤ c.toNat ∧ c.toNat ≤ 122) ∨
    (48 ≤ c.toNat ∧ c.toNat ≤ 57) ∨ c.toNat = 95)

def jsWhitespace (c : Char) : Bool :=
  decide (c.toNat = 32 ∨ c.toNat = 9 ∨ c.toNat = 10 ∨ c.toNat = 13 ∨
    c.toNat = 11 ∨ c.toNat = 12)

/-- ASCII lower-casing, the fragment of String.prototype.toLowerCase
exercised by the source (all pattern vocabulary is ASCII). -/
def lowerChar (c : Char) : Char :=
  if 65 ≤ c.toNat ∧ c.toNat ≤ 90 then Char.ofNat (c.toNat + 32) else c

def lowerStr (s : String) : String :=
  String.mk (s.toList.map lowerChar)

/- Substring containment, the model of String.prototype.includes. -/

def startsWithList : List Char → List Char → Bool
  | [], _ => true
  | _ :: _, [] => false
  | p :: ps, c :: cs => p = c && startsWithList ps cs

def containsAt (pat : List Char) : List Char → Bool
  | [] => startsWithList pat []
  | c :: cs => startsWithList pat (c :: cs) || containsAt pat cs

def containsStr (s pat : String) : Bool :=
  containsAt pat.toList s.toList

/-- Model of the !msgText.trim() guard: the string is empty or all
whitespace. -/
def trimEmpty (s : String) : Bool :=
  s.toList.all jsWhitespace

/- The GriefPrevention denial detector of src/tools/building.js: the
   message listener lower-cases the raw text and pushes it onto
   denialMessages when the permission-rejection vocabulary matches.
   JS operator precedence: && binds tighter than ||. -/

def denialPredicate (raw : String) : Bool :=
  let t := lowerStr raw
  (containsStr t "don\x27t have" && containsStr t "permission") ||
  containsStr t "belongs to" ||
  containsStr t "claimed by" ||
  (containsStr t "claim" && (containsStr t "can\x27t" || containsStr t "cannot")) ||
  containsStr t "not allowed" ||
  containsStr t "that belongs to"

/-- One delivery of a bot message event to the denial-capture listener of
placeBlock / breakBlock: the raw text is appended when the predicate
matches, otherwise the captured window is unchanged. -/
def denialCaptureStep (denials : List String) (raw : String) : List String :=
  if denialPredicate raw then denials ++ [raw] else denials

/- The chat-log pipeline of the connection module: the chat event handler
   and the message event handler that connect attaches to the bot. -/

/-- Channel tag of a bot message event: the position argument. The handler
only processes system and game_info positions. -/
inductive MsgPosition
  | system
  | gameInfo
  | other
deriving DecidableEq, Repr

inductive EntryType
  | chat
  | system
deriving DecidableEq, Repr

/-- One element of this.chatLog. Chat entries carry a user and no position;
system entries carry the position and no user. -/
structure ChatEntry where
  type : EntryType
  user : Option String
  message : String
  position : Option MsgPosition
  timestamp : Nat
deriving DecidableEq, Repr

/-- The mutable state touched by the two logging listeners: the bounded
chat log and the signPlacementTime variable of the message handler. -/
structure LogState where
  chatLog : List ChatEntry
  signPlacementTime : Nat
deriving DecidableEq, Repr

/-- Push onto this.chatLog, then shift the oldest entry when the length
exceeds 100. -/
def pushTrim (log : List ChatEntry) (e : ChatEntry) : List ChatEntry :=
  let l := log ++ [e]
  if 100 < l.length then l.tail else l

def chatEntry (user message : String) (now : Nat) : ChatEntry :=
  { type := EntryType.chat, user := some user, message := message,
    position := none, timestamp := now }

def systemEntry (msgText : String) (position : MsgPosition) (now : Nat) : ChatEntry :=
  { type := EntryType.system, user := none, message := msgText,
    position := some position, timestamp := now }

/-- Handler of the bot chat event: unconditionally logs a chat entry. -/
def handleChatEvent (st : LogState) (user message : String) (now : Nat) : LogState :=
  { st with chatLog := pushTrim st.chatLog (chatEntry user message now) }

/- The regular expressions of the message handler, compiled to scanners. -/

/-- Scanner for the sign-placement test: a word boundary followed by
place or placed, then a sign at-sign. The accumulator carries the previous
character for the boundary check. -/
def signScan (prev : Option Char) : List Char → Bool
  | [] => false
  | c :: rest =>
    ((match prev with
      | none => true
      | some p => !jsWordChar p) &&
     (startsWithList ("placed a sign @".toList) (c :: rest) ||
      startsWithList ("place a sign @".toList) (c :: rest))) ||
    signScan (some c) rest

def signPlacementTest (s : String) : Bool :=
  signScan none s.toList

/-- Test for at least two leading whitespace characters. -/
def leadingWs2 (s : String) : Bool :=
  match s.toList with
  | a :: b :: _ => jsWhitespace a && jsWhitespace b
  | _ => false

/-- The sign-content suppression guard: within 500 ms of a sign placement,
short lines starting with at least two whitespace characters are dropped. -/
def signContentTest (now signTime : Nat) (s : String) : Bool :=
  decide (now - signTime < 500) && leadingWs2 s && decide (s.length < 50)

/-- Drop characters up to and including the first occurrence of c. -/
def dropThrough (c : Char) : List Char → Option (List Char)
  | [] => none
  | x :: xs => if x = c then some xs else dropThrough c xs

def rightwardsArrow : Char := Char.ofNat 0x2192

/-- Scanner for the bracketed-arrow whisper pattern: an opening bracket,
later a rightwards arrow, later a closing bracket. -/
def arrowBracketTest (l : List Char) : Bool :=
  match dropThrough '[' l with
  | none => false
  | some r1 =>
    match dropThrough rightwardsArrow r1 with
    | none => false
    | some r2 => (dropThrough ']' r2).isSome

/-- The private-message suppression test: an ASCII arrow anywhere, a
case-insensitive whisper-to phrase, or a bracketed rightwards arrow. -/
def privacyTest (s : String) : Bool :=
  containsStr s "->" ||
  containsStr (lowerStr s) "whisper to" ||
  containsStr (lowerStr s) "whispers to" ||
  arrowBracketTest s.toList

/-- The third-party chat rewriting match: an anchored username of 3 to 16
word characters, a colon and a space, then a nonempty remainder with no
newline. The quantifier is deterministic here because a colon is not a
word character, so the username is exactly the maximal word prefix. -/
def parseChatMatch (s : String) : Option (String × String) :=
  let l := s.toList
  let pre := l.takeWhile jsWordChar
  let k := pre.length
  if 3 ≤ k ∧ k ≤ 16 then
    match l.drop k with
    | ':' :: ' ' :: rest =>
      if rest ≠ [] ∧ rest.all (fun c => c ≠ '\n') then
        some (String.mk pre, String.mk rest)
      else none
    | _ => none
  else none

/-- Handler of the bot message event attached by connect: suppression of
sign placements, sign content and whispers, rewriting of third-party chat
with the one-second deduplication check, and the system-entry fallback.
On a duplicate rewritten chat message the source falls through to the
system push. -/
def handleMessage (st : LogState) (msgText : String) (position : MsgPosition) (now : Nat) : LogState :=
  if position = MsgPosition.system ∨ position = MsgPosition.gameInfo then
    if trimEmpty msgText then st
    else if signPlacementTest msgText then { st with signPlacementTime := now }
    else if signContentTest now st.signPlacementTime msgText then st
    else if privacyTest msgText then st
    else
      match parseChatMatch msgText with
      | some (user, message) =>
        if position = MsgPosition.system then
          let isDuplicate := st.chatLog.any fun m =>
            decide (m.type = EntryType.chat) && decide (m.user = some user) &&
            decide (m.message = message) && decide (now - m.timestamp < 1000)
          if isDuplicate then
            { st with chatLog := pushTrim st.chatLog (systemEntry msgText position now) }
          else
            { st with chatLog := pushTrim st.chatLog (chatEntry user message now) }
        else
          { st with chatLog := pushTrim st.chatLog (systemEntry msgText position now) }
      | none => { st with chatLog := pushTrim st.chatLog (systemEntry msgText position now) }
  else st

/-- The combined effect of one message event on the two listeners that
observe the same stream: the logging handler of the connection module and
the denial-capture listener of a protected action. The capture listener
receives the raw text before any suppression decision and ignores the
channel tag. -/
def classifyAndCapture (st : LogState) (denials : List String) (msgText : String)
    (position : MsgPosition) (now : Nat) : LogState × List String :=
  (handleMessage st msgText position now, denialCaptureStep denials msgText)

/- The GriefPrevention claim lookup: checkClaimStatus collects the message
   lines arriving in a 1.5 s window after issuing trustlist and parses them
   cumulatively into a ClaimInfo record. -/

structure ClaimInfo where
  claimed : Bool
  owner : Option String
  builders : List String
  containers : List String
  accessors : List String
  managers : List String
  raw_messages : List String
  command_error : Bool
deriving DecidableEq, Repr

def emptyClaimInfo : ClaimInfo :=
  { claimed := false, owner := none, builders := [], containers := [],
    accessors := [], managers := [], raw_messages := [], command_error := false }

/-- Scanner for the owner pattern: the first occurrence of Owner: or
owner: followed by optional whitespace and a nonempty run of non-space
characters; on failure the scan resumes one character further, as the
regex engine does. -/
def ownerScan : List Char → Option (List Char)
  | [] => none
  | c :: rest =>
    if startsWithList ("Owner:".toList) (c :: rest) ||
       startsWithList ("owner:".toList) (c :: rest) then
      let after := (c :: rest).drop 6
      let name := (after.dropWhile jsWhitespace).takeWhile (fun d => !jsWhitespace d)
      if name.isEmpty then ownerScan rest else some name
    else ownerScan rest

/-- Scanner for the Key colon-whitespace-rest patterns of the trustlist
parser. The greedy whitespace skip backtracks by one character when
nothing follows it, exactly as the dot-plus group of the regex does on a
single-line input. -/
def keyRestScan (key : List Char) : List Char → Option (List Char)
  | [] => none
  | c :: rest =>
    if startsWithList key (c :: rest) then
      let after := (c :: rest).drop key.length
      let ws := after.takeWhile jsWhitespace
      let tl := after.drop ws.length
      if tl.isEmpty then
        match ws.getLast? with
        | some w => some [w]
        | none => keyRestScan key rest
      else some tl
    else keyRestScan key rest

def splitOnComma : List Char → List (List Char)
  | [] => [[]]
  | c :: rest =>
    if c = ',' then [] :: splitOnComma rest
    else
      match splitOnComma rest with
      | g :: gs => (c :: g) :: gs
      | [] => [[c]]

def trimChars (l : List Char) : List Char :=
  ((l.dropWhile jsWhitespace).reverse.dropWhile jsWhitespace).reverse

/-- Model of split on comma, map String.prototype.trim, filter nonempty. -/
def splitTrimFilter (l : List Char) : List String :=
  (((splitOnComma l).map trimChars).filter (fun g => !g.isEmpty)).map
    (fun g => String.mk g)

def noClaimLine (t : String) : Bool :=
  containsStr t "No claim exists" || containsStr t "Wilderness"

def ownerLine (t : String) : Bool :=
  containsStr t "owner:" || containsStr t "Owner:"

def managersLine (t : String) : Bool := containsStr t "Managers:"

def buildersLine (t : String) : Bool := containsStr t "Builders:"

def containersLine (t : String) : Bool := containsStr t "Containers:"

def accessorsLine (t : String) : Bool := containsStr t "Accessors:"

def commandErrorLine (t : String) : Bool :=
  containsStr t "That command is not recognized"

/-- The branch chain of the trustlist onMessage listener, applied to the
record after the raw message has been appended. -/
def claimLineBody (ci : ClaimInfo) (t : String) : ClaimInfo :=
  if noClaimLine t then { ci with claimed := false }
  else if ownerLine t then
    match ownerScan t.toList with
    | some name => { ci with claimed := true, owner := some (String.mk name) }
    | none => { ci with claimed := true }
  else if managersLine t then
    match keyRestScan ("Managers:".toList) t.toList with
    | some rest => { ci with claimed := true, managers := splitTrimFilter rest }
    | none => { ci with claimed := true }
  else if buildersLine t then
    match keyRestScan ("Builders:".toList) t.toList with
    | some rest => { ci with claimed := true, builders := splitTrimFilter rest }
    | none => { ci with claimed := true }
  else if containersLine t then
    match keyRestScan ("Containers:".toList) t.toList with
    | some rest => { ci with claimed := true, containers := splitTrimFilter rest }
    | none => { ci with claimed := true }
  else if accessorsLine t then
    match keyRestScan ("Accessors:".toList) t.toList with
    | some rest => { ci with claimed := true, accessors := splitTrimFilter rest }
    | none => { ci with claimed := true }
  else if commandErrorLine t then { ci with command_error := true }
  else ci

/-- One message line of the trustlist capture window, applied to the
accumulating ClaimInfo exactly as the onMessage listener of
checkClaimStatus does: the raw text is recorded, then the branch chain
runs. -/
def processClaimLine (ci : ClaimInfo) (t : String) : ClaimInfo :=
  claimLineBody { ci with raw_messages := ci.raw_messages ++ [t] } t

/-- The whole capture window of one checkClaimStatus invocation. -/
def checkClaimWindow (lines : List String) : ClaimInfo :=
  lines.foldl processClaimLine emptyClaimInfo

/- Outcome classification of the protected actions in
   src/tools/building.js: after the 300 ms settle window the post-action
   snapshot and the captured denial window decide the verdict. -/

inductive Verdict
  | succeeded
  | denied
  | failedUnknown
deriving DecidableEq, Repr

structure ActionOutcome where
  verdict : Verdict
  denialText : Option String
  claimLookupTriggered : Bool
  claimInfo : Option ClaimInfo
deriving DecidableEq, Repr

/-- Tail of placeBlock: the post snapshot is the name of the block now at
the target, none when there is no block. No change means no block or air;
with a captured denial the outcome is denied with the first captured text
and the claim lookup attached, otherwise failed for an unknown reason. -/
def placeVerify (placedAfter : Option String) (denials : List String)
    (lookup : ClaimInfo) : ActionOutcome :=
  if placedAfter = none ∨ placedAfter = some "air" then
    match denials with
    | d :: _ =>
      { verdict := Verdict.denied, denialText := some d,
        claimLookupTriggered := true, claimInfo := some lookup }
    | [] =>
      { verdict := Verdict.failedUnknown, denialText := none,
        claimLookupTriggered := false, claimInfo := none }
  else
    { verdict := Verdict.succeeded, denialText := none,
      claimLookupTriggered := false, claimInfo := none }

/-- Tail of breakBlock: success when the target block vanished, became air
or changed name; otherwise the same denial classification as placeBlock. -/
def breakVerify (beforeName : String) (afterBlock : Option String)
    (denials : List String) (lookup : ClaimInfo) : ActionOutcome :=
  if afterBlock = none ∨ afterBlock = some "air" ∨ afterBlock ≠ some beforeName then
    { verdict := Verdict.succeeded, denialText := none,
      claimLookupTriggered := false, claimInfo := none }
  else
    match denials with
    | d :: _ =>
      { verdict := Verdict.denied, denialText := some d,
        claimLookupTriggered := true, claimInfo := some lookup }
    | [] =>
      { verdict := Verdict.failedUnknown, denialText := none,
        claimLookupTriggered := false, claimInfo := none }

/- The connection state machine: the MinecraftMCP constructor fields and
   the connect / disconnect / scheduleReconnect methods together with the
   per-bot event handlers that connect registers. Bot teardown by quit is
   folded into the calling step; a quit bot emits no further modelled
   events. -/

inductive ConnState
  | disconnected
  | connecting
  | connected
  | reconnecting
deriving DecidableEq, Repr

structure ConnectArgs where
  host : String
  port : Nat
  username : String
  version : Option String
  auth : Option String
deriving DecidableEq, Repr

/-- The session-relevant fields of the MinecraftMCP instance, plus the
closure state of the current connection attempt: resolvedFlag is the
resolved variable of the pending connect promise, spawnArmed records that
the once spawn handler of the current bot has not fired yet, and
pendingTimer holds the delay of an outstanding reconnect timer. -/
structure Session where
  connectionState : ConnState
  connectArgs : Option ConnectArgs
  reconnectAttempt : Nat
  maxReconnectAttempts : Nat
  baseReconnectDelay : Nat
  botPresent : Bool
  resolvedFlag : Bool
  spawnArmed : Bool
  pendingTimer : Option Nat
  lastDisconnectReason : Option String
deriving DecidableEq, Repr

/-- The constructor state: disconnected, no credentials, attempt 0, budget
10, base delay 2000 ms. -/
def startSession : Session :=
  { connectionState := ConnState.disconnected, connectArgs := none,
    reconnectAttempt := 0, maxReconnectAttempts := 10,
    baseReconnectDelay := 2000, botPresent := false, resolvedFlag := true,
    spawnArmed := false, pendingTimer := none, lastDisconnectReason := none }

inductive ConnectResult
  | busy (st : ConnState)
  | started (quitPrevious : Bool)
  | createFailed
deriving DecidableEq, Repr

/-- The connect method. Credentials are stored before the busy guard when
the call is not a reconnect; a call made while connecting or reconnecting
returns the already-busy text and changes nothing else; otherwise the
state becomes reconnecting for a reconnect call and connecting for a
fresh one, any existing bot is quit, and a new bot is created (createOk
false models mineflayer.createBot throwing, which finishes the attempt as
disconnected). -/
def connectCall (s : Session) (args : ConnectArgs) (isReconnect : Bool)
    (createOk : Bool) : ConnectResult × Session :=
  if isReconnect then
    if s.connectionState = ConnState.connecting ∨
       s.connectionState = ConnState.reconnecting then
      (ConnectResult.busy s.connectionState, s)
    else if createOk then
      (ConnectResult.started s.botPresent,
        { s with connectionState := ConnState.reconnecting,
                 botPresent := true, resolvedFlag := false, spawnArmed := true })
    else
      (ConnectResult.createFailed,
        { s with connectionState := ConnState.disconnected,
                 botPresent := false, resolvedFlag := true, spawnArmed := false })
  else
    if s.connectionState = ConnState.connecting ∨
       s.connectionState = ConnState.reconnecting then
      (ConnectResult.busy s.connectionState, { s with connectArgs := some args })
    else if createOk then
      (ConnectResult.started s.botPresent,
        { s with connectArgs := some args,
                 connectionState := ConnState.connecting,
                 botPresent := true, resolvedFlag := false, spawnArmed := true })
    else
      (ConnectResult.createFailed,
        { s with connectArgs := some args,
                 connectionState := ConnState.disconnected,
                 botPresent := false, resolvedFlag := true, spawnArmed := false })

/-- The once spawn handler: connected, attempt counter reset, reason
cleared, promise resolved. -/
def spawnHandler (s : Session) : Session :=
  { s with connectionState := ConnState.connected, reconnectAttempt := 0,
           lastDisconnectReason := none, resolvedFlag := true,
           spawnArmed := false }

/-- The error handler finishes the attempt as a failure unless it already
resolved. -/
def errorHandler (s : Session) : Session :=
  if s.resolvedFlag then s
  else { s with resolvedFlag := true, connectionState := ConnState.disconnected }

/-- The kicked handler records the disconnect reason. -/
def kickedHandler (s : Session) (reason : String) : Session :=
  { s with lastDisconnectReason := some ("Kicked: " ++ reason) }

/-- The reconnect delay computed by scheduleReconnect for a 1-indexed
attempt n: exponential backoff from the base, capped at 60000 ms. -/
def reconnectDelay (base n : Nat) : Nat :=
  min (base * 2 ^ (n - 1)) 60000

/-- scheduleReconnect: at or beyond the attempt budget it gives up and
forces disconnected without scheduling; otherwise it increments the
attempt counter, enters reconnecting and schedules the backoff timer. -/
def scheduleReconnect (s : Session) : Session :=
  if s.maxReconnectAttempts ≤ s.reconnectAttempt then
    { s with connectionState := ConnState.disconnected }
  else
    { s with reconnectAttempt := s.reconnectAttempt + 1,
             connectionState := ConnState.reconnecting,
             pendingTimer :=
               some (reconnectDelay s.baseReconnectDelay (s.reconnectAttempt + 1)) }

/-- The end handler: remembers whether the session was connected, drops
the bot, falls back to disconnected when the attempt had not resolved,
and schedules a reconnect when it was connected and credentials are
retained. -/
def endCore (s : Session) : Session :=
  if s.resolvedFlag then { s with botPresent := false, spawnArmed := false }
  else { s with botPresent := false, spawnArmed := false,
                connectionState := ConnState.disconnected }

def endHandler (s : Session) : Session :=
  if decide (s.connectionState = ConnState.connected) && (endCore s).connectArgs.isSome
  then scheduleReconnect (endCore s) else endCore s

/-- The reconnect timer callback: it awaits connect with the stored
credentials and isReconnect true, swallowing any rejection. With no
stored credentials the destructuring throws and is swallowed. -/
def timerFire (s : Session) (createOk : Bool) : Session :=
  match s.connectArgs with
  | none => { s with pendingTimer := none }
  | some args =>
    (connectCall { s with pendingTimer := none } args true createOk).2

/-- The 30 second connection timeout: when the attempt has neither
resolved nor reached connected it finishes the attempt as disconnected. -/
def timeoutHandler (s : Session) : Session :=
  if !s.resolvedFlag && !(decide (s.connectionState = ConnState.connected)) then
    { s with resolvedFlag := true, connectionState := ConnState.disconnected }
  else s

/-- The disconnect method: clears credentials, resets the attempt counter,
forces disconnected and quits any bot. The pending reconnect timer is not
cancelled. -/
def disconnectCall (s : Session) : Session :=
  if s.botPresent then
    { s with connectArgs := none, reconnectAttempt := 0,
             connectionState := ConnState.disconnected,
             botPresent := false, spawnArmed := false }
  else
    { s with connectArgs := none, reconnectAttempt := 0,
             connectionState := ConnState.disconnected }

/-- The externally observable events that drive the session: tool calls
and bot events. createOk distinguishes whether bot creation succeeds. -/
inductive SessionEvent
  | connectTool (args : ConnectArgs) (createOk : Bool)
  | spawnEv
  | errorEv
  | kickedEv (reason : String)
  | endEv
  | timerEv (createOk : Bool)
  | timeoutEv
  | disconnectTool
deriving DecidableEq, Repr

/-- One step of the session under an event. Bot events fire only while a
bot exists, the spawn handler only while it is armed and the attempt is
unresolved, and the timer only while one is pending; an event whose
source does not exist leaves the session unchanged. -/
def stepTotal (s : Session) (e : SessionEvent) : Session :=
  match e with
  | SessionEvent.connectTool args createOk => (connectCall s args false createOk).2
  | SessionEvent.spawnEv =>
    if s.botPresent && s.spawnArmed && !s.resolvedFlag then spawnHandler s else s
  | SessionEvent.errorEv => if s.botPresent then errorHandler s else s
  | SessionEvent.kickedEv reason => if s.botPresent then kickedHandler s reason else s
  | SessionEvent.endEv => if s.botPresent then endHandler s else s
  | SessionEvent.timerEv createOk =>
    if s.pendingTimer.isSome then timerFire s createOk else s
  | SessionEvent.timeoutEv => timeoutHandler s
  | SessionEvent.disconnectTool => disconnectCall s

/-- The session reached by a sequence of events from the constructor
state. -/
def runSession (t : List SessionEvent) : Session :=
  t.foldl stepTotal startSession

/- Concrete fixtures used by witnesses and counterexamples. -/

def argsA : ConnectArgs :=
  { host := "localhost", port := 25565, username := "bot", version := none, auth := none }

def busySession : Session :=
  { startSession with connectionState := ConnState.connecting }

def connectedSession : Session :=
  { startSession with connectionState := ConnState.connected, botPresent := true }

def attemptFiveSession : Session :=
  { startSession with connectionState := ConnState.connected, reconnectAttempt := 5 }

def SpawnInvariant (s : Session) : Prop :=
  s.botPresent = true → s.spawnArmed = true → s.resolvedFlag = false →
    s.connectionState = ConnState.connecting ∨
    s.connectionState = ConnState.reconnecting

/-- A reconnect timer that survives a disconnect and a successful fresh
connect: its late firing passes the busy guard while connected and drops
the session back into reconnecting with a fresh armed bot. -/
def staleTimerTrace : List SessionEvent :=
  [SessionEvent.connectTool argsA true, SessionEvent.spawnEv, SessionEvent.endEv,
   SessionEvent.disconnectTool, SessionEvent.connectTool argsA true,
   SessionEvent.spawnEv, SessionEvent.timerEv true]

/-- The session left behind once a connected session loses its connection
and the single scheduled reconnect timer fires: the timer callback calls
connect with isReconnect true, but scheduleReconnect already set the
state to reconnecting, so the busy guard rejects the call. -/
def lostConnectionTrace : List SessionEvent :=
  [SessionEvent.connectTool argsA true, SessionEvent.spawnEv, SessionEvent.endEv,
   SessionEvent.timerEv true]

def stuckSession : Session := runSession lostConnectionTrace

/- C3: the deduplication path of the message handler. -/

def emptyLog : LogState := { chatLog := [], signPlacementTime := 0 }

def aliceChatState : LogState := handleChatEvent emptyLog "Alice" "hi" 100000

def aliceDupState : LogState :=
  handleMessage aliceChatState "Alice: hi" MsgPosition.system 100500

/- C6: the denial detector versus channel tags and suppression state. -/

def denialLine : String := "You don\x27t have permission to build in Bob\x27s claim"

/- C7: sign placement noise and its echoed content. -/

def signNoiseLine : String := "Bob placed a sign @ world: x1, z2"

def signContentLine : String := "  Hello"

/-- Test for a line that takes one of the claimed-setting branches of the
trustlist parser: not a no-claim line and mentioning one of the trust
keys. -/
def claimSetsTrue (t : String) : Bool :=
  !(noClaimLine t) &&
  (ownerLine t || managersLine t || buildersLine t || containersLine t ||
   accessorsLine t)

/- Case lemmas for the connect method, one per combination of the
   isReconnect flag, the busy guard and bot creation. -/

lemma connectCall_busy (s : Session) (args : ConnectArgs) (createOk : Bool)
    (h : s.connectionState = ConnState.connecting ∨
         s.connectionState = ConnState.reconnecting) :
    connectCall s args false createOk =
      (ConnectResult.busy s.connectionState, { s with connectArgs := some args }) := by
  unfold connectCall
  simp only [Bool.false_eq_true, if_false]
  rw [if_pos h]

lemma connectCall_fresh (s : Session) (args : ConnectArgs)
    (h : ¬ (s.connectionState = ConnState.connecting ∨
         s.connectionState = ConnState.reconnecting)) :
    connectCall s args false true =
      (ConnectResult.started s.botPresent,
        { s with connectArgs := some args,
                 connectionState := ConnState.connecting,
                 botPresent := true, resolvedFlag := false, spawnArmed := true }) := by
  unfold connectCall
  simp only [Bool.false_eq_true, if_false]
  rw [if_neg h]
  rfl

lemma connectCall_fresh_fail (s : Session) (args : ConnectArgs)
    (h : ¬ (s.connectionState = ConnState.connecting ∨
         s.connectionState = ConnState.reconnecting)) :
    connectCall s args false false =
      (ConnectResult.createFailed,
        { s with connectArgs := some args,
                 connectionState := ConnState.disconnected,
                 botPresent := false, resolvedFlag := true, spawnArmed := false }) := by
  unfold connectCall
  simp only [Bool.false_eq_true, if_false]
  rw [if_neg h]

lemma connectCall_retry_busy (s : Session) (args : ConnectArgs) (createOk : Bool)
    (h : s.connectionState = ConnState.connecting ∨
         s.connectionState = ConnState.reconnecting) :
    connectCall s args true createOk = (ConnectResult.busy s.connectionState, s) := by
  unfold connectCall
  simp only [if_true]
  rw [if_pos h]

lemma connectCall_retry_go (s : Session) (args : ConnectArgs)
    (h : ¬ (s.connectionState = ConnState.connecting ∨
         s.connectionState = ConnState.reconnecting)) :
    connectCall s args true true =
      (ConnectResult.started s.botPresent,
        { s with connectionState := ConnState.reconnecting,
                 botPresent := true, resolvedFlag := false, spawnArmed := true }) := by
  unfold connectCall
  simp only [if_true]
  rw [if_neg h]

lemma connectCall_retry_fail (s : Session) (args : ConnectArgs)
    (h : ¬ (s.connectionState = ConnState.connecting ∨
         s.connectionState = ConnState.reconnecting)) :
    connectCall s args true false =
      (ConnectResult.createFailed,
        { s with connectionState := ConnState.disconnected,
                 botPresent := false, resolvedFlag := true, spawnArmed := false }) := by
  unfold connectCall
  simp only [if_true]
  rw [if_neg h]
  rfl

/-- C1 (amended): the backoff delay scheduled by scheduleReconnect before
attempt n (1-indexed), under the default configuration of the constructor
(base 2000 ms, budget 10), equals min of 2000 times 2 to the n minus 1 and
60000 ms: the cap in the code is 60 seconds, not the 300 seconds of the
claim. -/
theorem backoff_delay_amended (s : Session) (n : Nat)
    (hbase : s.baseReconnectDelay = 2000)
    (hn : s.reconnectAttempt + 1 = n)
    (hbudget : s.reconnectAttempt < s.maxReconnectAttempts) :
    (scheduleReconnect s).pendingTimer = some (min (2000 * 2 ^ (n - 1)) 60000) := by
  have hguard : ¬ s.maxReconnectAttempts ≤ s.reconnectAttempt := by omega
  unfold scheduleReconnect
  rw [if_neg hguard]
  show some (reconnectDelay s.baseReconnectDelay (s.reconnectAttempt + 1)) = _
  rw [hbase, hn]
  rfl

/-- Witness for backoff_delay_amended at attempt 6 under the default
configuration: the scheduled delay is min of 64000 and 60000. -/
theorem backoff_delay_amended_witness :
    (scheduleReconnect attemptFiveSession).pendingTimer =
      some (min (2000 * 2 ^ (6 - 1)) 60000) :=
  backoff_delay_amended attemptFiveSession 6 rfl rfl (by decide)

/-- C1 counterexample: before attempt 6 the code schedules 60000 ms, not
the min of 2000 times 2 to the 5 and 300000 ms (that is 64000 ms) that the
claim demands. -/
theorem backoff_delay_claim_counterexample :
    (scheduleReconnect attemptFiveSession).pendingTimer ≠
      some (min (2000 * 2 ^ (6 - 1)) 300000) := by decide

/-- C4: a connect tool call made while the session is connecting or
reconnecting returns the informative already-busy result naming the
current state, and leaves the connection state, the bot, the armed spawn
handler, the pending attempt flag and any scheduled reconnect timer
untouched, so the in-flight attempt is neither queued behind nor
superseded. -/
theorem connect_busy_rejected (s : Session) (args : ConnectArgs) (createOk : Bool)
    (h : s.connectionState = ConnState.connecting ∨
         s.connectionState = ConnState.reconnecting) :
    (connectCall s args false createOk).1 = ConnectResult.busy s.connectionState ∧
    (connectCall s args false createOk).2.connectionState = s.connectionState ∧
    (connectCall s args false createOk).2.botPresent = s.botPresent ∧
    (connectCall s args false createOk).2.spawnArmed = s.spawnArmed ∧
    (connectCall s args false createOk).2.resolvedFlag = s.resolvedFlag ∧
    (connectCall s args false createOk).2.pendingTimer = s.pendingTimer := by
  rw [connectCall_busy s args createOk h]
  exact ⟨rfl, rfl, rfl, rfl, rfl, rfl⟩

/-- Witness for connect_busy_rejected on a connecting session. -/
theorem connect_busy_rejected_witness :
    (connectCall busySession argsA false true).1 =
      ConnectResult.busy busySession.connectionState ∧
    (connectCall busySession argsA false true).2.connectionState =
      busySession.connectionState ∧
    (connectCall busySession argsA false true).2.botPresent = busySession.botPresent ∧
    (connectCall busySession argsA false true).2.spawnArmed = busySession.spawnArmed ∧
    (connectCall busySession argsA false true).2.resolvedFlag = busySession.resolvedFlag ∧
    (connectCall busySession argsA false true).2.pendingTimer = busySession.pendingTimer :=
  connect_busy_rejected busySession argsA true (Or.inl rfl)

/-- C10: a connect tool call made while connected is not rejected as busy:
it quits the existing bot, overwrites the stored credentials with the new
arguments, and starts a fresh attempt in state connecting with a new bot
whose spawn handler is armed. -/
theorem connect_while_connected (s : Session) (args : ConnectArgs)
    (hst : s.connectionState = ConnState.connected)
    (hbot : s.botPresent = true) :
    (connectCall s args false true).1 = ConnectResult.started true ∧
    (connectCall s args false true).2.connectionState = ConnState.connecting ∧
    (connectCall s args false true).2.connectArgs = some args ∧
    (connectCall s args false true).2.botPresent = true ∧
    (connectCall s args false true).2.resolvedFlag = false ∧
    (connectCall s args false true).2.spawnArmed = true := by
  have hne : ¬ (s.connectionState = ConnState.connecting ∨
      s.connectionState = ConnState.reconnecting) := by
    rw [hst]; decide
  rw [connectCall_fresh s args hne]
  exact ⟨by rw [hbot], rfl, rfl, rfl, rfl, rfl⟩

/-- Witness for connect_while_connected. -/
theorem connect_while_connected_witness :
    (connectCall connectedSession argsA false true).1 = ConnectResult.started true ∧
    (connectCall connectedSession argsA false true).2.connectionState =
      ConnState.connecting ∧
    (connectCall connectedSession argsA false true).2.connectArgs = some argsA ∧
    (connectCall connectedSession argsA false true).2.botPresent = true ∧
    (connectCall connectedSession argsA false true).2.resolvedFlag = false ∧
    (connectCall connectedSession argsA false true).2.spawnArmed = true :=
  connect_while_connected connectedSession argsA rfl rfl

/- The state machine invariant behind the connected transition: whenever a
   bot exists whose spawn handler is armed for an unresolved attempt, the
   session is in the state that the creating connect call set, connecting
   for a fresh call and reconnecting for a retry. -/

lemma endHandler_botPresent (s : Session) : (endHandler s).botPresent = false := by
  unfold endHandler scheduleReconnect endCore
  split <;> split <;> (try split) <;> rfl

lemma spawnInvariant_connectCall (s : Session) (args : ConnectArgs)
    (isReconnect createOk : Bool) (h : SpawnInvariant s) :
    SpawnInvariant (connectCall s args isReconnect createOk).2 := by
  unfold connectCall
  split
  · split
    · exact h
    · split
      · intro h1 h2 h3
        exact Or.inr rfl
      · intro h1 h2 h3
        exact absurd h3 (by simp)
  · split
    · intro h1 h2 h3
      exact h h1 h2 h3
    · split
      · intro h1 h2 h3
        exact Or.inl rfl
      · intro h1 h2 h3
        exact absurd h3 (by simp)

lemma spawnInvariant_step (s : Session) (e : SessionEvent)
    (h : SpawnInvariant s) : SpawnInvariant (stepTotal s e) := by
  cases e with
  | connectTool args ok =>
    exact spawnInvariant_connectCall s args false ok h
  | spawnEv =>
    show SpawnInvariant (if _ then spawnHandler s else s)
    split
    · intro h1 h2 h3
      exact absurd h2 (by simp [spawnHandler])
    · exact h
  | errorEv =>
    show SpawnInvariant (if _ then errorHandler s else s)
    split
    · unfold errorHandler
      split
      · exact h
      · intro h1 h2 h3
        exact absurd h3 (by simp)
    · exact h
  | kickedEv reason =>
    show SpawnInvariant (if _ then kickedHandler s reason else s)
    split
    · intro h1 h2 h3
      exact h h1 h2 h3
    · exact h
  | endEv =>
    show SpawnInvariant (if _ then endHandler s else s)
    split
    · intro h1 h2 h3
      exact absurd ((endHandler_botPresent s).symm.trans h1) (by simp)
    · exact h
  | timerEv ok =>
    show SpawnInvariant (if _ then timerFire s ok else s)
    split
    · unfold timerFire
      split
      · intro h1 h2 h3
        exact h h1 h2 h3
      · exact spawnInvariant_connectCall _ _ true ok (fun h1 h2 h3 => h h1 h2 h3)
    · exact h
  | timeoutEv =>
    show SpawnInvariant (timeoutHandler s)
    unfold timeoutHandler
    split
    · intro h1 h2 h3
      exact absurd h3 (by simp)
    · exact h
  | disconnectTool =>
    show SpawnInvariant (disconnectCall s)
    unfold disconnectCall
    split
    · intro h1 h2 h3
      exact absurd h1 (by simp)
    · rename_i hb
      intro h1 h2 h3
      exact absurd h1 hb

lemma spawnInvariant_run (t : List SessionEvent) : SpawnInvariant (runSession t) := by
  suffices hgen : ∀ s, SpawnInvariant s → SpawnInvariant (t.foldl stepTotal s) by
    apply hgen
    intro h1 _ _
    exact absurd h1 (by simp [startSession])
  induction t with
  | nil => intro s hs; exact hs
  | cons e rest ih =>
    intro s hs
    exact ih (stepTotal s e) (spawnInvariant_step s e hs)

lemma connectCall_connected (s : Session) (args : ConnectArgs)
    (isReconnect createOk : Bool)
    (h : (connectCall s args isReconnect createOk).2.connectionState = ConnState.connected) :
    s.connectionState = ConnState.connected := by
  unfold connectCall at h
  split at h
  · split at h
    · exact h
    · split at h
      · exact absurd h (by simp)
      · exact absurd h (by simp)
  · split at h
    · exact h
    · split at h
      · exact absurd h (by simp)
      · exact absurd h (by simp)

lemma scheduleReconnect_not_connected (s : Session)
    (h : (scheduleReconnect s).connectionState = ConnState.connected) : False := by
  unfold scheduleReconnect at h
  split at h
  · exact absurd h (by simp)
  · exact absurd h (by simp)

lemma endHandler_connected (s : Session)
    (h : (endHandler s).connectionState = ConnState.connected) :
    s.connectionState = ConnState.connected := by
  unfold endHandler at h
  split at h
  · exact absurd h (fun hc => scheduleReconnect_not_connected _ hc)
  · unfold endCore at h
    split at h
    · exact h
    · exact absurd h (by simp)

/-- Any step of the session that ends in state connected starts from
connecting, reconnecting or connected: the spawn handler is the only
transition into connected and it can only fire under the spawn
invariant. -/
lemma connected_entry (s : Session) (e : SessionEvent)
    (hinv : SpawnInvariant s)
    (h : (stepTotal s e).connectionState = ConnState.connected) :
    s.connectionState = ConnState.connecting ∨
    s.connectionState = ConnState.reconnecting ∨
    s.connectionState = ConnState.connected := by
  cases e with
  | connectTool args ok =>
    exact Or.inr (Or.inr (connectCall_connected s args false ok h))
  | spawnEv =>
    simp only [stepTotal] at h
    split at h
    · rename_i hg
      simp only [Bool.and_eq_true] at hg
      have hr : s.resolvedFlag = false := by
        rcases hg with ⟨_, hr⟩
        cases hcase : s.resolvedFlag
        · rfl
        · rw [hcase] at hr
          exact absurd hr (by decide)
      rcases hinv hg.1.1 hg.1.2 hr with hc | hc
      · exact Or.inl hc
      · exact Or.inr (Or.inl hc)
    · exact Or.inr (Or.inr h)
  | errorEv =>
    simp only [stepTotal] at h
    split at h
    · unfold errorHandler at h
      split at h
      · exact Or.inr (Or.inr h)
      · exact absurd h (by simp)
    · exact Or.inr (Or.inr h)
  | kickedEv reason =>
    simp only [stepTotal] at h
    split at h
    · exact Or.inr (Or.inr h)
    · exact Or.inr (Or.inr h)
  | endEv =>
    simp only [stepTotal] at h
    split at h
    · exact Or.inr (Or.inr (endHandler_connected s h))
    · exact Or.inr (Or.inr h)
  | timerEv ok =>
    simp only [stepTotal] at h
    split at h
    · unfold timerFire at h
      split at h
      · exact Or.inr (Or.inr h)
      · exact Or.inr (Or.inr
          (connectCall_connected { s with pendingTimer := none } _ true ok h))
    · exact Or.inr (Or.inr h)
  | timeoutEv =>
    simp only [stepTotal] at h
    unfold timeoutHandler at h
    split at h
    · exact absurd h (by simp)
    · exact Or.inr (Or.inr h)
  | disconnectTool =>
    simp only [stepTotal] at h
    unfold disconnectCall at h
    split at h
    · exact absurd h (by simp)
    · exact absurd h (by simp)

/-- C2 (amended): after any event sequence, the session is in exactly one
of the four states (the single connectionState field), and any further
event that lands the machine in connected starts from connecting,
reconnecting or connected. The retry path deliberately keeps state
reconnecting (not connecting) during a reconnect-driven connect call, so
connected can be entered directly from reconnecting. -/
theorem connected_always_preceded_by_connecting_or_reconnecting
    (t : List SessionEvent) (e : SessionEvent)
    (h : (stepTotal (runSession t) e).connectionState = ConnState.connected) :
    (runSession t).connectionState = ConnState.connecting ∨
    (runSession t).connectionState = ConnState.reconnecting ∨
    (runSession t).connectionState = ConnState.connected :=
  connected_entry (runSession t) e (spawnInvariant_run t) h

/-- Witness for the amended C2 theorem: the fresh connect trace enters
connected from connecting. -/
theorem connected_always_preceded_witness :
    (runSession [SessionEvent.connectTool argsA true]).connectionState =
      ConnState.connecting ∨
    (runSession [SessionEvent.connectTool argsA true]).connectionState =
      ConnState.reconnecting ∨
    (runSession [SessionEvent.connectTool argsA true]).connectionState =
      ConnState.connected :=
  connected_always_preceded_by_connecting_or_reconnecting
    [SessionEvent.connectTool argsA true] SessionEvent.spawnEv (by decide)

/-- C2 counterexample: an explicit event sequence on which the machine
enters connected directly from reconnecting, never passing through
connecting in between, refuting the claim that every path into connected
goes through connecting immediately beforehand. -/
theorem connected_from_reconnecting_counterexample :
    (runSession staleTimerTrace).connectionState = ConnState.reconnecting ∧
    (stepTotal (runSession staleTimerTrace) SessionEvent.spawnEv).connectionState =
      ConnState.connected := by
  exact ⟨rfl, rfl⟩

/-- C5: the code never reaches the give-up state the claim describes.
After the first disconnection of a connected session the scheduled
reconnect is rejected by the busy guard of connect, leaving the session
in reconnecting with no timer, no bot and attempt counter 1; every
further event other than an explicit connect or disconnect tool call
leaves this state fixed, so consecutive failed reconnect attempts can
never accumulate to the budget of 10 and the state never becomes
disconnected on its own. -/
theorem reconnect_budget_unreachable :
    stuckSession.connectionState = ConnState.reconnecting ∧
    stuckSession.pendingTimer = none ∧
    stuckSession.botPresent = false ∧
    stuckSession.reconnectAttempt = 1 ∧
    stepTotal stuckSession SessionEvent.spawnEv = stuckSession ∧
    stepTotal stuckSession SessionEvent.errorEv = stuckSession ∧
    (∀ reason, stepTotal stuckSession (SessionEvent.kickedEv reason) = stuckSession) ∧
    stepTotal stuckSession SessionEvent.endEv = stuckSession ∧
    (∀ createOk, stepTotal stuckSession (SessionEvent.timerEv createOk) = stuckSession) ∧
    stepTotal stuckSession SessionEvent.timeoutEv = stuckSession := by
  refine ⟨rfl, rfl, rfl, rfl, rfl, rfl, fun reason => rfl, rfl, fun createOk => rfl, rfl⟩

/-- C3: a chat event for Alice saying hi, followed 500 ms later by the
rewritten informational-channel line, leaves TWO entries in the chat log:
the dedup check recognises the duplicate, but the duplicate branch falls
through to the system push instead of discarding the message, so the
rewritten duplicate is logged under the system kind. -/
theorem duplicate_rewrite_logged_as_system :
    aliceDupState.chatLog =
      [chatEntry "Alice" "hi" 100000,
       systemEntry "Alice: hi" MsgPosition.system 100500] ∧
    aliceDupState.chatLog.length = 2 := by
  exact ⟨by decide, by decide⟩

/-- C6: delivering the denial line to the classifier and an open capture
window appends exactly one denial signal, for every channel tag, every
logging state (hence any active sign or whisper suppression) and every
time, because the capture listener runs on the unfiltered raw text. -/
theorem denial_always_captured (st : LogState) (denials : List String)
    (position : MsgPosition) (now : Nat) :
    (classifyAndCapture st denials denialLine position now).2 =
      denials ++ [denialLine] ∧
    (classifyAndCapture st denials denialLine position now).2.length =
      denials.length + 1 := by
  constructor
  · show denialCaptureStep denials denialLine = _
    unfold denialCaptureStep
    rw [if_pos (by decide : denialPredicate denialLine = true)]
  · show (denialCaptureStep denials denialLine).length = _
    unfold denialCaptureStep
    rw [if_pos (by decide : denialPredicate denialLine = true)]
    simp

/-- C7: a sign-placement notification on the informational channel
followed within 500 ms by the echoed content line appends nothing to the
chat log, and neither line produces a denial signal. -/
theorem sign_noise_fully_suppressed (st : LogState) (denials : List String)
    (p1 p2 : MsgPosition) (t1 t2 : Nat)
    (h1 : p1 = MsgPosition.system ∨ p1 = MsgPosition.gameInfo)
    (h2 : p2 = MsgPosition.system ∨ p2 = MsgPosition.gameInfo)
    (hwin : t2 - t1 < 500) :
    (handleMessage st signNoiseLine p1 t1).chatLog = st.chatLog ∧
    (handleMessage (handleMessage st signNoiseLine p1 t1) signContentLine p2 t2).chatLog
      = st.chatLog ∧
    denialCaptureStep (denialCaptureStep denials signNoiseLine) signContentLine
      = denials := by
  have e1 : handleMessage st signNoiseLine p1 t1 = { st with signPlacementTime := t1 } := by
    unfold handleMessage
    rw [if_pos h1, if_neg (by decide : ¬ trimEmpty signNoiseLine = true),
        if_pos (by decide : signPlacementTest signNoiseLine = true)]
  have hcontent : signContentTest t2
      ({ st with signPlacementTime := t1 } : LogState).signPlacementTime
      signContentLine = true := by
    show signContentTest t2 t1 signContentLine = true
    unfold signContentTest
    simp only [Bool.and_eq_true, decide_eq_true_eq]
    exact ⟨⟨hwin, by decide⟩, by decide⟩
  have e2 : handleMessage { st with signPlacementTime := t1 } signContentLine p2 t2 =
      { st with signPlacementTime := t1 } := by
    unfold handleMessage
    rw [if_pos h2, if_neg (by decide : ¬ trimEmpty signContentLine = true),
        if_neg (by decide : ¬ signPlacementTest signContentLine = true),
        if_pos hcontent]
  refine ⟨?_, ?_, ?_⟩
  · rw [e1]
  · rw [e1, e2]
  · unfold denialCaptureStep
    rw [if_neg (by decide : ¬ denialPredicate signNoiseLine = true),
        if_neg (by decide : ¬ denialPredicate signContentLine = true)]

/-- Witness for sign_noise_fully_suppressed on an empty log at times 1000
and 1300. -/
theorem sign_noise_fully_suppressed_witness :
    (handleMessage emptyLog signNoiseLine MsgPosition.system 1000).chatLog =
      emptyLog.chatLog ∧
    (handleMessage (handleMessage emptyLog signNoiseLine MsgPosition.system 1000)
      signContentLine MsgPosition.system 1300).chatLog = emptyLog.chatLog ∧
    denialCaptureStep (denialCaptureStep [] signNoiseLine) signContentLine = [] :=
  sign_noise_fully_suppressed emptyLog [] MsgPosition.system MsgPosition.system
    1000 1300 (Or.inl rfl) (Or.inl rfl) (by decide)

/- C8: outcome classification of the protected actions. -/

/-- C8: when the post-action snapshot shows no change, both placeBlock
and breakBlock classify a nonempty captured denial window as denied,
carrying the first captured text and the claim lookup, and an empty
window as failed for an unknown reason with no claim lookup triggered. -/
theorem protected_action_outcomes (after : Option String)
    (lookup : ClaimInfo) (beforeName : String) (d : String) (ds : List String)
    (hplace : after = none ∨ after = some "air")
    (hbreak : beforeName ≠ "air") :
    placeVerify after (d :: ds) lookup =
      { verdict := Verdict.denied, denialText := some d,
        claimLookupTriggered := true, claimInfo := some lookup } ∧
    placeVerify after [] lookup =
      { verdict := Verdict.failedUnknown, denialText := none,
        claimLookupTriggered := false, claimInfo := none } ∧
    breakVerify beforeName (some beforeName) (d :: ds) lookup =
      { verdict := Verdict.denied, denialText := some d,
        claimLookupTriggered := true, claimInfo := some lookup } ∧
    breakVerify beforeName (some beforeName) [] lookup =
      { verdict := Verdict.failedUnknown, denialText := none,
        claimLookupTriggered := false, claimInfo := none } := by
  have hcond : ¬ ((some beforeName : Option String) = none ∨
      (some beforeName : Option String) = some "air" ∨
      (some beforeName : Option String) ≠ some beforeName) := by
    intro hc
    rcases hc with hc | hc | hc
    · exact Option.noConfusion hc
    · exact hbreak (Option.some.inj hc)
    · exact hc rfl
  refine ⟨?_, ?_, ?_, ?_⟩
  · unfold placeVerify
    rw [if_pos hplace]
  · unfold placeVerify
    rw [if_pos hplace]
  · unfold breakVerify
    rw [if_neg hcond]
  · unfold breakVerify
    rw [if_neg hcond]

/-- Witness for protected_action_outcomes: an empty target with one
captured denial, and a stone block that survived the dig. -/
theorem protected_action_outcomes_witness :
    placeVerify none ["You can\x27t build here"] emptyClaimInfo =
      { verdict := Verdict.denied, denialText := some "You can\x27t build here",
        claimLookupTriggered := true, claimInfo := some emptyClaimInfo } ∧
    placeVerify none [] emptyClaimInfo =
      { verdict := Verdict.failedUnknown, denialText := none,
        claimLookupTriggered := false, claimInfo := none } ∧
    breakVerify "stone" (some "stone") ["You can\x27t build here"] emptyClaimInfo =
      { verdict := Verdict.denied, denialText := some "You can\x27t build here",
        claimLookupTriggered := true, claimInfo := some emptyClaimInfo } ∧
    breakVerify "stone" (some "stone") [] emptyClaimInfo =
      { verdict := Verdict.failedUnknown, denialText := none,
        claimLookupTriggered := false, claimInfo := none } :=
  protected_action_outcomes none emptyClaimInfo "stone"
    "You can\x27t build here" [] (Or.inl rfl) (by decide)

/- C9: the trustlist parser. -/

lemma claimLineBody_claimed_false (ci : ClaimInfo) (t : String)
    (hci : ci.claimed = false) (ht : claimSetsTrue t = false) :
    (claimLineBody ci t).claimed = false := by
  have hfalse : ∀ (hnc : noClaimLine t = false)
      (hkey : (ownerLine t || managersLine t || buildersLine t ||
        containersLine t || accessorsLine t) = true), False := by
    intro hnc hkey
    unfold claimSetsTrue at ht
    rw [hnc, hkey] at ht
    simp at ht
  have hbool : ∀ b : Bool, ¬ b = true → b = false := by
    intro b hb
    cases b
    · rfl
    · exact absurd rfl hb
  unfold claimLineBody
  split
  · rfl
  · split
    · rename_i hnc how
      exact absurd (hfalse (hbool _ hnc) (by rw [how]; simp)) not_false
    · split
      · rename_i hnc how hm
        exact absurd (hfalse (hbool _ hnc) (by rw [hm]; simp)) not_false
      · split
        · rename_i hnc how hm hb
          exact absurd (hfalse (hbool _ hnc) (by rw [hb]; simp)) not_false
        · split
          · rename_i hnc how hm hb hc
            exact absurd (hfalse (hbool _ hnc) (by rw [hc]; simp)) not_false
          · split
            · rename_i hnc how hm hb hc ha
              exact absurd (hfalse (hbool _ hnc) (by rw [ha]; simp)) not_false
            · split
              · exact hci
              · exact hci

lemma checkClaimFold_claimed_false (lines : List String) :
    ∀ ci : ClaimInfo, ci.claimed = false →
      (∀ l ∈ lines, claimSetsTrue l = false) →
      (lines.foldl processClaimLine ci).claimed = false := by
  induction lines with
  | nil =>
    intro ci hci _
    exact hci
  | cons l rest ih =>
    intro ci hci hall
    simp only [List.foldl]
    apply ih
    · show (claimLineBody { ci with raw_messages := ci.raw_messages ++ [l] } l).claimed = false
      exact claimLineBody_claimed_false _ l hci (hall l (by simp))
    · intro x hx
      exact hall x (by simp [hx])

/-- C9: a trustlist capture window with the lines Owner: Alice and
Builders: Bob, Carol yields claimed true, owner Alice and builders Bob
and Carol; and any window whose lines all avoid the claimed-setting
branches (no claim-related lines, or only explicit no-claim phrases)
yields claimed false. -/
theorem claim_lookup_parses (lines : List String)
    (hall : ∀ l ∈ lines, claimSetsTrue l = false) :
    (checkClaimWindow ["Owner: Alice", "Builders: Bob, Carol"]).claimed = true ∧
    (checkClaimWindow ["Owner: Alice", "Builders: Bob, Carol"]).owner =
      some "Alice" ∧
    (checkClaimWindow ["Owner: Alice", "Builders: Bob, Carol"]).builders =
      ["Bob", "Carol"] ∧
    (checkClaimWindow lines).claimed = false := by
  refine ⟨by decide, by decide, by decide, ?_⟩
  exact checkClaimFold_claimed_false lines emptyClaimInfo rfl hall

/-- Witness for claim_lookup_parses on a window holding one explicit
no-claim line and one unrelated line. -/
theorem claim_lookup_parses_witness :
    (checkClaimWindow ["Owner: Alice", "Builders: Bob, Carol"]).claimed = true ∧
    (checkClaimWindow ["Owner: Alice", "Builders: Bob, Carol"]).owner =
      some "Alice" ∧
    (checkClaimWindow ["Owner: Alice", "Builders: Bob, Carol"]).builders =
      ["Bob", "Carol"] ∧
    (checkClaimWindow ["Wilderness ahead", "Time of day: noon"]).claimed = false :=
  claim_lookup_parses ["Wilderness ahead", "Time of day: noon"] (by decide)

end Haksnbot
